import Mathlib

/-!
Verification of the triage backend's classification, scoring and assignment
engines (`backend/app/services/{classifier_deterministic,classifier_override,
scoring,assignment}.py`), shallowly embedded in Lean.

Modelling conventions:
* Python `float` arithmetic is modelled as exact rational arithmetic (`ℚ`).
* Calendar dates are modelled as integer day numbers where day `0` is a
  Monday, so `date.weekday()` (0 = Monday, as the source comments note)
  becomes `d % 7` (`Int.emod`).  Python's `%` on integers is floor-mod,
  which for a positive modulus agrees with `Int.emod`, Lean's `%` on `ℤ`.
* The hidden clock (`datetime.now()` / `date.today()` / `datetime.utcnow()`)
  is made an explicit parameter (`today`, `now_hour`); an email's
  `received_at` is modelled by `received_hours_ago`, the (possibly negative)
  rational number of hours between `received_at` and now, `none` standing
  for a missing or unparsable timestamp.
* The `re` module is modelled by an explicit environment `ReEnv`: `search`
  is an arbitrary oracle deciding `re.search(pattern, text) is not None`
  for the pattern strings embedded below, and the two explicit-date
  branches of `_find_deadline_in_text` (month-name dates and numeric
  dates, lines 251-300 of scoring.py), which no claim here depends on,
  are modelled as oracle-supplied candidate-date lists.  Plain keyword
  membership (`kw in text`) is embedded concretely as substring search.
* JSON recipient lists are modelled as already-decoded lists (a decode
  failure in `parse_recipients` yields `[]`, modelled by the field simply
  being `[]`).
* Database queries (thread velocity counts, reply-chain participation) are
  modelled as optional read-only lookup functions, `none` when no session
  is supplied.
-/

/-- Does the character list `l` start with `p`? (helper for substring search). -/
def listStarts : List Char → List Char → Bool
  | _, [] => true
  | [], _ :: _ => false
  | a :: as, b :: bs => a == b && listStarts as bs

/-- Does the haystack contain `needle` as a contiguous sublist? -/
def charsContain (needle : List Char) : List Char → Bool
  | [] => listStarts [] needle
  | a :: t => listStarts (a :: t) needle || charsContain needle t

/-- Python's `needle in hay` on strings. -/
def strContains (hay needle : String) : Bool :=
  charsContain needle.data hay.data

/-- Python's `str.lower()` (ASCII, character by character). -/
def pyLower (s : String) : String :=
  ⟨s.data.map Char.toLower⟩

/-- Python's `s[:n]` slicing on strings. -/
def pyTake (s : String) (n : ℕ) : String :=
  ⟨s.data.take n⟩

/-- Split a character list at every occurrence of `c` (Python `split`). -/
def splitChar (c : Char) : List Char → List (List Char)
  | [] => [[]]
  | a :: t =>
      let r := splitChar c t
      if a == c then [] :: r
      else
        match r with
        | h :: rest => (a :: h) :: rest
        | [] => [[a]]

/-- Python's `s.split(c)[-1]`: the part after the last occurrence of `c`. -/
def lastPart (s : String) (c : Char) : String :=
  ⟨(splitChar c s.data).getLastD []⟩

/-- Python's `int()` truncation towards zero, on rationals. -/
def pyInt (q : ℚ) : ℤ :=
  if 0 ≤ q then ⌊q⌋ else ⌈q⌉

/-- Python's `round()` to an integer: round half to even. -/
def roundHalfEven (x : ℚ) : ℤ :=
  let n := ⌊x⌋
  let f := x - (n : ℚ)
  if f < 1 / 2 then n
  else if 1 / 2 < f then n + 1
  else if n % 2 = 0 then n else n + 1

/-- Python's `round(x, 2)`. -/
def pyRound2 (q : ℚ) : ℚ :=
  (roundHalfEven (q * 100) : ℚ) / 100

/-- Environment abstracting the `re` module and the explicit-date parsing of
`_find_deadline_in_text`.  `search p t` decides `re.search(p, t, IGNORECASE)
is not None`; `monthDayDates` / `numericDates` return the candidate dates
produced by the month-name and numeric date branches; `directAddress` models
the first-name regex battery of `has_direct_address` (classifier_override.py
lines 149-163), returning the matched fragment. -/
structure ReEnv where
  search : String → String → Bool
  monthDayDates : String → List ℤ
  numericDates : String → List ℤ
  directAddress : String → String → Option String

/-- A decoded entry of a `to_recipients` / `cc_recipients` JSON list. -/
structure Recipient where
  address : String
deriving DecidableEq

/-- The item being triaged (the email dictionary fields the engines read). -/
structure Email where
  subject : String := ""
  body : String := ""
  body_preview : String := ""
  from_address : String := ""
  from_name : String := ""
  importance : String := "normal"
  received_hours_ago : Option ℚ := none
  conversation_id : Option String := none
  category_id : Option ℤ := none
  to_recipients : List Recipient := []
  cc_recipients : List Recipient := []
  headers : Option String := none
deriving DecidableEq

/-- Is a character allowed by the `[\w\.-]` class of `extract_domain`
(ASCII reading of `\w`)? -/
def isDomainChar (c : Char) : Bool :=
  c.isAlphanum || c == '_' || c == '.' || c == '-'

/-- `extract_domain` (defined identically in classifier_override.py and
classifier_deterministic.py): the regex `@([\w\.-]+)$` on the lowered
address captures the suffix after the last `@` provided it is a nonempty
run of domain characters; otherwise the result is the empty string. -/
def extract_domain (email_address : String) : String :=
  if email_address = "" then ""
  else
    let low := pyLower email_address
    if low.data.contains '@' then
      let tail := lastPart low '@'
      if tail ≠ "" ∧ tail.data.all isDomainChar then tail else ""
    else ""

namespace ClassifierOverride

def VIP_SENDERS : List String := []

def VIP_DOMAINS : List String := []

def USER_EMAIL : String := "user@company.com"

def USER_FIRST_NAME : String := "User"

def URGENCY_KEYWORDS : List String :=
  ["urgent", "asap", "time-sensitive", "time sensitive", "immediate attention",
   "action required", "critical", "deadline today", "due today",
   "due immediately", "needs your approval", "please respond by",
   "respond asap", "priority", "high priority", "blocker", "blocking"]

/-- `is_sole_to_recipient`: the user is the single `To:` recipient. -/
def is_sole_to_recipient (to_recipients : List Recipient) (user_email : String) : Bool :=
  match to_recipients with
  | [r] => pyLower r.address == pyLower user_email
  | _ => false

/-- `contains_urgency_language`: first urgency keyword contained in the
lowered text, if any. -/
def contains_urgency_language (text : String) : Option String :=
  if text = "" then none
  else URGENCY_KEYWORDS.find? (fun k => strContains (pyLower text) k)

/-- `is_vip_sender`: sender address or sender domain in the VIP registries. -/
def is_vip_sender (from_address : String) : Bool :=
  if from_address = "" then false
  else
    let low := pyLower from_address
    if VIP_SENDERS.any (fun v => pyLower v == low) then true
    else VIP_DOMAINS.any (fun v => pyLower v == extract_domain from_address)

/-- `has_direct_address`: the regex battery is consulted only when both the
body and the first name are nonempty. -/
def has_direct_address (env : ReEnv) (body : String) (first_name : String) : Option String :=
  if body = "" ∨ first_name = "" then none
  else env.directAddress body first_name

/-- `check_reply_chain_participation`; the database query "did the user send
a message in this conversation" is the lookup oracle. -/
def check_reply_chain_participation (conversation_id : String) (user_email : String)
    (db : Option (String → String → Bool)) : Bool :=
  match db with
  | none => false
  | some q =>
      if conversation_id = "" ∨ user_email = "" then false
      else q conversation_id user_email

/-- Result dictionary of `check_override`; absent `reason`/`trigger` keys are
`none`. -/
structure OverrideResult where
  override : Bool
  reason : Option String := none
  trigger : Option String := none
deriving DecidableEq

/-- Trigger 1: urgency language in subject + body. -/
def check_urgency_override (email : Email) : Option OverrideResult :=
  let text := email.subject ++ " " ++ email.body
  match contains_urgency_language text with
  | some k => some ⟨true, some ("Contains urgency language: " ++ k), some "urgency_language"⟩
  | none => none

/-- Trigger 2: VIP sender. -/
def check_vip_override (email : Email) : Option OverrideResult :=
  if is_vip_sender email.from_address then
    some ⟨true, some ("Email from VIP sender: " ++ email.from_address), some "vip_sender"⟩
  else none

/-- Trigger 3: sole recipient + FYI mismatch (only for category 9). -/
def check_sole_recipient_override (email : Email) (current_category : ℤ)
    (user_email : String) : Option OverrideResult :=
  if current_category ≠ 9 then none
  else if is_sole_to_recipient email.to_recipients user_email then
    some ⟨true, some "Sole To: recipient but classified as FYI - likely needs action",
          some "sole_recipient_mismatch"⟩
  else none

/-- Trigger 4: reply-chain participation. -/
def check_reply_chain_override (email : Email) (user_email : String)
    (db : Option (String → String → Bool)) : Option OverrideResult :=
  let conversation_id := email.conversation_id.getD ""
  if check_reply_chain_participation conversation_id user_email db then
    some ⟨true, some "User previously participated in this conversation thread",
          some "reply_chain_participation"⟩
  else none

/-- Trigger 5: direct address by first name. -/
def check_direct_address_override (env : ReEnv) (email : Email)
    (first_name : String) : Option OverrideResult :=
  match has_direct_address env email.body first_name with
  | some m => some ⟨true, some ("Email directly addresses user: " ++ m), some "direct_address"⟩
  | none => none

/-- `check_override`: emails whose current category is outside {6,7,8,9,11}
are returned untouched; otherwise the five triggers run in order, first
match wins (trigger 4 only when a database session is supplied). -/
def check_override (env : ReEnv) (email : Email) (current_category : ℤ)
    (user_email : String) (first_name : String)
    (db : Option (String → String → Bool)) : OverrideResult :=
  if ¬ (current_category ∈ ([6, 7, 8, 9, 11] : List ℤ)) then ⟨false, none, none⟩
  else
    match check_urgency_override email with
    | some r => r
    | none =>
    match check_vip_override email with
    | some r => r
    | none =>
    match check_sole_recipient_override email current_category user_email with
    | some r => r
    | none =>
    match (match db with
           | some _ => check_reply_chain_override email user_email db
           | none => none) with
    | some r => r
    | none =>
    match check_direct_address_override env email first_name with
    | some r => r
    | none => ⟨false, none, none⟩

end ClassifierOverride

namespace Scoring

def USER_DOMAIN : String := "live.com"

/-- `SIGNAL_WEIGHTS` (must sum to 1.0). -/
def SIGNAL_WEIGHTS : List (String × ℚ) :=
  [("explicit_deadline", 0.25),
   ("sender_seniority", 0.15),
   ("importance_flag", 0.10),
   ("urgency_language", 0.15),
   ("thread_velocity", 0.10),
   ("client_external", 0.05),
   ("age_of_email", 0.10),
   ("followup_overdue", 0.10)]

def URGENCY_FLOOR_THRESHOLD : ℚ := 90

def STALE_ESCALATION_ENABLED : Bool := true

/-- One tier of `STALE_ESCALATION_CURVE`; tier 4 carries `force_today` and no
`bonus_per_day` key. -/
structure StaleTier where
  day_min : ℤ
  day_max : ℤ
  bonus_per_day : Option ℤ
  force_today : Bool
deriving DecidableEq

def STALE_ESCALATION_CURVE : List StaleTier :=
  [⟨0, 3, some 2, false⟩,
   ⟨4, 5, some 5, false⟩,
   ⟨6, 10, some 10, false⟩,
   ⟨11, 999, none, true⟩]

def RELATIVE_TIME_PATTERNS : List (String × ℤ) :=
  [("\\btoday\\b", 0),
   ("\\btonigh?t\\b", 0),
   ("\\bthis evening\\b", 0),
   ("\\btomorrow\\b", 1),
   ("\\bthis week\\b", 4),
   ("\\bnext week\\b", 7),
   ("\\bend of week\\b", 5),
   ("\\bthis month\\b", 15),
   ("\\bnext month\\b", 30)]

/-- `DAY_PATTERNS`: day-of-week regexes paired with the target number stored
in the source (Monday = 1 … Sunday = 7; bare names only Monday-Friday). -/
def DAY_PATTERNS : List (String × ℤ) :=
  [("\\bnext\\s+monday\\b", 1),
   ("\\bnext\\s+tuesday\\b", 2),
   ("\\bnext\\s+wednesday\\b", 3),
   ("\\bnext\\s+thursday\\b", 4),
   ("\\bnext\\s+friday\\b", 5),
   ("\\bnext\\s+saturday\\b", 6),
   ("\\bnext\\s+sunday\\b", 7),
   ("\\bthis\\s+monday\\b", 1),
   ("\\bthis\\s+tuesday\\b", 2),
   ("\\bthis\\s+wednesday\\b", 3),
   ("\\bthis\\s+thursday\\b", 4),
   ("\\bthis\\s+friday\\b", 5),
   ("\\bthis\\s+saturday\\b", 6),
   ("\\bthis\\s+sunday\\b", 7),
   ("\\bmonday\\b", 1),
   ("\\btuesday\\b", 2),
   ("\\bwednesday\\b", 3),
   ("\\bthursday\\b", 4),
   ("\\bfriday\\b", 5)]

def TIME_OF_DAY_PATTERNS : List String :=
  ["\\bEOD\\b",
   "\\bCOB\\b",
   "\\bend of (day|business)\\b",
   "\\bclose of business\\b",
   "\\bby end of day\\b",
   "\\bby close of business\\b"]

def URGENCY_KEYWORDS_strong : List String :=
  ["\\bASAP\\b", "\\burgent\\b", "\\bimmediately\\b", "\\bcritical\\b",
   "\\bemergency\\b", "\\btime-critical\\b", "\\basap\\b", "\\bright now\\b",
   "\\bneeds? immediate\\b"]

def URGENCY_KEYWORDS_medium : List String :=
  ["\\btime-sensitive\\b", "\\bpriority\\b", "\\baction required\\b",
   "\\bplease respond\\b", "\\bresponse needed\\b", "\\breview and respond\\b",
   "\\bneeds? (your )?attention\\b", "\\brequires? (your )?action\\b",
   "\\bimportant\\b"]

def URGENCY_KEYWORDS_mild : List String :=
  ["\\bwhen you (get a|have) chance\\b", "\\bno rush\\b", "\\blow priority\\b",
   "\\bwhenever you (can|have time)\\b", "\\bno hurry\\b",
   "\\bat your convenience\\b"]

/-- Resolution of one matched `DAY_PATTERNS` entry (scoring.py lines
233-240): `days_ahead = (target - today.weekday()) % 7`, forced to 7 when it
is 0 and the pattern contains `next`. -/
def dayCandidate (today : ℤ) (p : String × ℤ) : ℤ :=
  let current_day := today % 7
  let days_ahead := (p.2 - current_day) % 7
  let days_ahead := if days_ahead = 0 ∧ strContains p.1 "next" then 7 else days_ahead
  today + days_ahead

/-- `_find_deadline_in_text`: collect candidate dates from every detection
source and keep the earliest, `none` when nothing matched. -/
def find_deadline_in_text (env : ReEnv) (today now_hour : ℤ) (text : String) : Option ℤ :=
  let relative := RELATIVE_TIME_PATTERNS.filterMap
    (fun p => if env.search p.1 text then some (today + p.2) else none)
  let days := DAY_PATTERNS.filterMap
    (fun p => if env.search p.1 text then some (dayCandidate today p) else none)
  let eod := TIME_OF_DAY_PATTERNS.filterMap
    (fun p => if env.search p text then
        some (if now_hour < 17 then today else today + 1) else none)
  (relative ++ days ++ eod ++ env.monthDayDates text ++ env.numericDates text).min?

/-- Signal 1, `extract_explicit_deadline`: bucket the days-until-deadline. -/
def extract_explicit_deadline (env : ReEnv) (today now_hour : ℤ) (email : Email) : ℤ :=
  let text := pyLower email.subject ++ " " ++ pyLower email.body_preview ++ " "
      ++ pyTake (pyLower email.body) 1000
  match find_deadline_in_text env today now_hour text with
  | none => 0
  | some deadline =>
      let days_until := deadline - today
      if days_until < 0 then 100
      else if days_until = 0 then 100
      else if days_until = 1 then 85
      else if days_until = 2 then 70
      else if days_until = 3 then 55
      else if days_until = 4 ∨ days_until = 5 then 40
      else if days_until = 6 ∨ days_until = 7 then 25
      else 10

/-- Signal 2, `extract_sender_seniority`. -/
def extract_sender_seniority (email : Email) (user_domain : String) : ℤ :=
  let sender_email := pyLower email.from_address
  if sender_email = "" then 10
  else if ClassifierOverride.VIP_SENDERS.any (fun v => pyLower v == sender_email) then 90
  else
    let sender_domain := if sender_email.data.contains '@'
      then lastPart sender_email '@' else ""
    if ClassifierOverride.VIP_DOMAINS.any (fun d => pyLower d == sender_domain) then 90
    else if sender_domain ≠ "" ∧ sender_domain ≠ pyLower user_domain then 40
    else if sender_domain = pyLower user_domain then 20
    else 10

/-- Signal 3, `extract_importance_flag`. -/
def extract_importance_flag (email : Email) : ℤ :=
  let importance := pyLower email.importance
  if importance = "high" then 80
  else if importance = "low" then -20
  else 0

/-- Signal 4, `extract_urgency_language` (subject doubled in the text). -/
def extract_urgency_language (env : ReEnv) (email : Email) : ℤ :=
  let subject := pyLower email.subject
  let text := subject ++ " " ++ subject ++ " " ++ pyLower email.body_preview
      ++ " " ++ pyTake (pyLower email.body) 500
  if URGENCY_KEYWORDS_strong.any (fun p => env.search p text) then 90
  else if URGENCY_KEYWORDS_medium.any (fun p => env.search p text) then 60
  else if URGENCY_KEYWORDS_mild.any (fun p => env.search p text) then -10
  else 0

/-- Signal 5, `extract_thread_velocity`: the last-24h same-conversation count
comes from the optional database session, modelled as a lookup; without a
session the signal is 0. -/
def extract_thread_velocity (email : Email) (db : Option (String → ℕ)) : ℤ :=
  match db with
  | none => 0
  | some lookup =>
      match email.conversation_id with
      | none => 0
      | some conversation_id =>
          if conversation_id = "" then 0
          else
            let count := lookup conversation_id
            if count ≥ 5 then 80
            else if count ≥ 3 then 60
            else if count = 2 then 40
            else if count = 1 then 20
            else 0

/-- Signal 6, `extract_client_external`. -/
def extract_client_external (email : Email) (user_domain : String) : ℤ :=
  let sender_email := pyLower email.from_address
  if sender_email = "" ∨ ¬ sender_email.data.contains '@' then 0
  else
    let sender_domain := lastPart sender_email '@'
    if sender_domain ≠ pyLower user_domain then 50 else 0

/-- Signal 7, `extract_age_of_email` (capped at 40). -/
def extract_age_of_email (email : Email) : ℤ :=
  match email.received_hours_ago with
  | none => 0
  | some hours_old =>
      if hours_old < 2 then 0
      else if hours_old < 12 then 10
      else if hours_old < 24 then 20
      else if hours_old / 24 < 2 then 30
      else 40

/-- Signal 8, `extract_followup_overdue` (category 4 only). -/
def extract_followup_overdue (env : ReEnv) (today now_hour : ℤ) (email : Email) : ℤ :=
  if email.category_id ≠ some 4 then 0
  else
    let text := pyLower email.subject ++ " " ++ pyLower email.body_preview ++ " "
        ++ pyTake (pyLower email.body) 1000
    match find_deadline_in_text env today now_hour text with
    | none => 0
    | some deadline =>
        let days_overdue := today - deadline
        if days_overdue > 0 then min (days_overdue * 15) 100 else 0

/-- The eight raw signal values of one email. -/
structure Signals where
  explicit_deadline : ℤ
  sender_seniority : ℤ
  importance_flag : ℤ
  urgency_language : ℤ
  thread_velocity : ℤ
  client_external : ℤ
  age_of_email : ℤ
  followup_overdue : ℤ
deriving DecidableEq

/-- The `signals` dictionary of `score_email`, in insertion order. -/
def signalsList (s : Signals) : List (String × ℤ) :=
  [("explicit_deadline", s.explicit_deadline),
   ("sender_seniority", s.sender_seniority),
   ("importance_flag", s.importance_flag),
   ("urgency_language", s.urgency_language),
   ("thread_velocity", s.thread_velocity),
   ("client_external", s.client_external),
   ("age_of_email", s.age_of_email),
   ("followup_overdue", s.followup_overdue)]

/-- `SIGNAL_WEIGHTS[name]`. -/
def weightOf (name : String) : ℚ :=
  ((SIGNAL_WEIGHTS.find? (fun p => p.1 == name)).map Prod.snd).getD 0

/-- The `weighted_sum` accumulated over `signals.items()`. -/
def weighted_sum (s : Signals) : ℚ :=
  (signalsList s).foldl (fun acc p => acc + (p.2 : ℚ) * weightOf p.1) 0

/-- All eight signal extractions of `score_email`. -/
def signalsOf (env : ReEnv) (today now_hour : ℤ) (email : Email)
    (db : Option (String → ℕ)) (user_domain : String) : Signals :=
  ⟨extract_explicit_deadline env today now_hour email,
   extract_sender_seniority email user_domain,
   extract_importance_flag email,
   extract_urgency_language env email,
   extract_thread_velocity email db,
   extract_client_external email user_domain,
   extract_age_of_email email,
   extract_followup_overdue env today now_hour email⟩

/-- `apply_stale_escalation`: tiered per-day bonus over
`STALE_ESCALATION_CURVE`, with tier 4 forcing the score to 100.  Returns
`(adjusted_score, stale_days, stale_bonus, force_today)`; `stale_days` is
`(now - received_at).days`, i.e. the floor of the hour difference over 24. -/
def apply_stale_escalation (email : Email) (raw_score : ℚ) : ℚ × ℤ × ℤ × Bool :=
  if ¬ STALE_ESCALATION_ENABLED then (raw_score, 0, 0, false)
  else
    match email.received_hours_ago with
    | none => (raw_score, 0, 0, false)
    | some hours =>
        let stale_days : ℤ := ⌊hours / 24⌋
        match STALE_ESCALATION_CURVE.find?
            (fun t => decide (t.day_min ≤ stale_days ∧ stale_days ≤ t.day_max)) with
        | some tier =>
            if tier.force_today then
              (100, stale_days, pyInt (100 - raw_score), true)
            else
              let stale_bonus := (stale_days - tier.day_min + 1) * tier.bonus_per_day.getD 0
              (max 0 (min 100 (raw_score + (stale_bonus : ℚ))), stale_days, stale_bonus, false)
        | none => (max 0 (min 100 (raw_score + 0)), stale_days, 0, false)

/-- `apply_urgency_floor`: flag scores reaching the floor threshold. -/
def apply_urgency_floor (adjusted_score : ℚ) (urgency_floor : ℚ) : ℚ × Bool :=
  (adjusted_score, decide (urgency_floor ≤ adjusted_score))

/-- The dictionary returned by `score_email`. -/
structure ScoreResult where
  urgency_score : ℤ
  raw_score : ℚ
  stale_bonus : ℤ
  adjusted_score : ℚ
  stale_days : ℤ
  force_today : Bool
  floor_override : Bool
  signals : Signals
  breakdown : List (String × ℚ)
deriving DecidableEq

/-- `score_email`: extract the eight signals, clamp their weighted sum to
[0,100], apply stale escalation and the urgency floor. -/
def score_email (env : ReEnv) (today now_hour : ℤ) (email : Email)
    (db : Option (String → ℕ)) (user_domain : String) : ScoreResult :=
  let signals := signalsOf env today now_hour email db user_domain
  let breakdown := (signalsList signals).map
    (fun p => (p.1 ++ "_weighted", pyRound2 ((p.2 : ℚ) * weightOf p.1)))
  let raw_score : ℚ := max 0 (min 100 (weighted_sum signals))
  let st := apply_stale_escalation email raw_score
  let fl := apply_urgency_floor st.1 URGENCY_FLOOR_THRESHOLD
  { urgency_score := roundHalfEven fl.1,
    raw_score := pyRound2 raw_score,
    stale_bonus := st.2.2.1,
    adjusted_score := pyRound2 st.1,
    stale_days := st.2.1,
    force_today := st.2.2.2,
    floor_override := fl.2,
    signals := signals,
    breakdown := breakdown }

end Scoring

namespace ClassifierDeterministic

def MARKETING_DOMAINS : List String :=
  ["mailchimp.com", "sendgrid.net", "constantcontact.com", "hubspot.com",
   "marketo.com", "campaign-monitor.com", "mailgun.org", "postmarkapp.com",
   "amazonses.com"]

def NOTIFICATION_DOMAINS : List String :=
  ["microsoft.com", "google.com", "apple.com", "github.com", "slack.com",
   "atlassian.com", "servicenow.com", "workday.com", "asana.com",
   "trello.com", "notion.so", "figma.com", "dropbox.com", "box.com",
   "zoom.us"]

def CALENDAR_SENDERS : List String :=
  ["calendar-notification@google.com", "calendar@microsoft.com",
   "noreply@calendar.microsoft.com", "teams@microsoft.com"]

def TRAVEL_DOMAINS : List String :=
  ["delta.com", "united.com", "aa.com", "southwest.com", "jetblue.com",
   "alaskaair.com", "spiritairlines.com", "frontier.com", "marriott.com",
   "hilton.com", "ihg.com", "hyatt.com", "choicehotels.com", "wyndham.com",
   "hertz.com", "enterprise.com", "avis.com", "budget.com",
   "nationalcar.com", "uber.com", "lyft.com", "expedia.com", "booking.com",
   "hotels.com", "kayak.com", "tripadvisor.com", "airbnb.com", "vrbo.com",
   "priceline.com"]

def MARKETING_SENDER_PATTERNS : List String :=
  ["^noreply@", "^no-reply@", "^marketing@", "^newsletter@", "^promotions@",
   "^deals@", "^offers@"]

def NOTIFICATION_SENDER_PATTERNS : List String :=
  ["^noreply@", "^no-reply@", "^notifications@", "^alerts@", "^donotreply@",
   "^mailer-daemon@", "^no_reply@"]

def MARKETING_SUBJECT_KEYWORDS : List String :=
  ["unsubscribe", "% off", "percent off", "limited time", "sale", "deal",
   "promo code", "free shipping", "discount", "save now", "special offer"]

def NOTIFICATION_SUBJECT_PATTERNS : List String :=
  ["your order", "shipping update", "password reset", "security alert",
   "verification code", "new sign-in", "account activity",
   "confirm your email", "reset your password"]

def CALENDAR_SUBJECT_PATTERNS : List String :=
  ["^invitation:", "^updated invitation:", "^canceled:", "^accepted:",
   "^declined:", "^tentative:", "meeting invitation", "event invitation"]

def TRAVEL_SUBJECT_KEYWORDS : List String :=
  ["booking confirmation", "itinerary", "flight confirmation", "check-in",
   "reservation", "trip summary", "boarding pass", "e-ticket",
   "hotel confirmation"]

def URGENCY_KEYWORDS : List String :=
  ["urgent", "asap", "important", "critical", "deadline", "action required",
   "immediate", "time sensitive"]

/-- `contains_pattern`: first regex pattern matching the lowered text. -/
def contains_pattern (env : ReEnv) (text : String) (patterns : List String) : Option String :=
  if text = "" then none
  else patterns.find? (fun p => env.search p (pyLower text))

/-- `contains_keyword`: first keyword contained in the lowered text. -/
def contains_keyword (text : String) (keywords : List String) : Option String :=
  if text = "" then none
  else keywords.find? (fun k => strContains (pyLower text) (pyLower k))

/-- `is_sole_recipient`: the user is the single `To:` recipient. -/
def is_sole_recipient (to_recipients : List Recipient) (user_email : String) : Bool :=
  match to_recipients with
  | [r] => pyLower r.address == pyLower user_email
  | _ => false

/-- `user_in_cc_only`: user absent from `To:` but present in `Cc:`. -/
def user_in_cc_only (to_recipients cc_recipients : List Recipient)
    (user_email : String) : Bool :=
  let u := pyLower user_email
  if to_recipients.any (fun r => pyLower r.address == u) then false
  else cc_recipients.any (fun r => pyLower r.address == u)

/-- `has_urgency_language` over subject + body. -/
def has_urgency_language (subject body : String) : Bool :=
  (contains_keyword (subject ++ " " ++ body) URGENCY_KEYWORDS).isSome

/-- Result of one deterministic rule. -/
structure ClassificationResult where
  category_id : ℤ
  rule : String
  confidence : ℚ
deriving DecidableEq

/-- Category 8, `check_calendar`. -/
def check_calendar (env : ReEnv) (email : Email) : Option ClassificationResult :=
  if strContains (pyLower email.body) "text/calendar" || strContains (pyLower email.body) ".ics" then
    some ⟨8, "Calendar MIME type or .ics attachment detected", 0.95⟩
  else
    match contains_pattern env email.subject CALENDAR_SUBJECT_PATTERNS with
    | some p => some ⟨8, "Calendar subject pattern: " ++ p, 0.90⟩
    | none =>
        if pyLower email.from_address ∈ CALENDAR_SENDERS then
          some ⟨8, "Calendar system sender: " ++ email.from_address, 0.90⟩
        else none

/-- Category 6, `check_marketing` (travel/notification domains excluded;
a marketing sender pattern is suppressed when the subject also matches a
notification pattern). -/
def check_marketing (env : ReEnv) (email : Email) : Option ClassificationResult :=
  let domain := extract_domain email.from_address
  if domain ∈ TRAVEL_DOMAINS ∨ domain ∈ NOTIFICATION_DOMAINS then none
  else if (match email.headers with
           | some h => if h = "" then false else strContains (pyLower h) "list-unsubscribe"
           | none => false) then
    some ⟨6, "List-Unsubscribe header present", 0.95⟩
  else
    match contains_pattern env email.from_address MARKETING_SENDER_PATTERNS,
          contains_keyword email.subject NOTIFICATION_SUBJECT_PATTERNS with
    | some p, none => some ⟨6, "Marketing sender pattern: " ++ p, 0.85⟩
    | _, _ =>
        if domain ∈ MARKETING_DOMAINS then
          some ⟨6, "Marketing platform domain: " ++ domain, 0.90⟩
        else
          match contains_keyword email.subject MARKETING_SUBJECT_KEYWORDS with
          | some k => some ⟨6, "Marketing keyword in subject: " ++ k, 0.85⟩
          | none => none

/-- Category 11, `check_travel`. -/
def check_travel (email : Email) : Option ClassificationResult :=
  let domain := extract_domain email.from_address
  if domain ∈ TRAVEL_DOMAINS then
    some ⟨11, "Travel domain: " ++ domain, 0.90⟩
  else
    match contains_keyword email.subject TRAVEL_SUBJECT_KEYWORDS with
    | some k => some ⟨11, "Travel keyword in subject: " ++ k, 0.85⟩
    | none => none

/-- Category 7, `check_notification` (sole-recipient + urgency exclusion). -/
def check_notification (env : ReEnv) (email : Email) (user_email : String) :
    Option ClassificationResult :=
  let domain := extract_domain email.from_address
  match contains_pattern env email.from_address NOTIFICATION_SENDER_PATTERNS with
  | some p =>
      if is_sole_recipient email.to_recipients user_email
          && has_urgency_language email.subject email.body then none
      else some ⟨7, "Notification sender pattern: " ++ p, 0.85⟩
  | none =>
      if domain ∈ NOTIFICATION_DOMAINS then
        if is_sole_recipient email.to_recipients user_email
            && has_urgency_language email.subject email.body then none
        else some ⟨7, "Notification domain: " ++ domain, 0.88⟩
      else
        match contains_pattern env email.subject NOTIFICATION_SUBJECT_PATTERNS with
        | some p => some ⟨7, "Notification subject pattern: " ++ p, 0.85⟩
        | none => none

/-- Category 9, `check_fyi`. -/
def check_fyi (email : Email) (user_email : String) : Option ClassificationResult :=
  if user_in_cc_only email.to_recipients email.cc_recipients user_email then
    if has_urgency_language email.subject email.body then none
    else some ⟨9, "User in CC field only", 0.88⟩
  else if email.to_recipients.length ≥ 3 then
    if has_urgency_language email.subject email.body then none
    else some ⟨9, "Group email with " ++ toString email.to_recipients.length
              ++ " recipients", 0.85⟩
  else none

/-- Python truthiness of the optional `user_email` argument (both `None` and
the empty string are falsy). -/
def strTruthy : Option String → Bool
  | none => false
  | some s => !(s == "")

/-- `classify_deterministic`: calendar, marketing and travel rules always
run; notification and FYI rules only when a (truthy) user address is
supplied. -/
def classify_deterministic (env : ReEnv) (email : Email)
    (user_email : Option String) : Option ClassificationResult :=
  match check_calendar env email with
  | some r => some r
  | none =>
  match check_marketing env email with
  | some r => some r
  | none =>
  match check_travel email with
  | some r => some r
  | none =>
  match (if strTruthy user_email then check_notification env email (user_email.getD "") else none) with
  | some r => some r
  | none =>
  if strTruthy user_email then check_fyi email (user_email.getD "") else none

end ClassifierDeterministic

namespace Assignment

/-- The five assignment slots. -/
inductive Slot
  | today
  | tomorrow
  | this_week
  | next_week
  | no_date
deriving DecidableEq

/-- Floor vs standard pool. -/
inductive Pool
  | floor
  | standard
deriving DecidableEq

/-- A scored email as consumed by `assign_due_dates`. -/
structure ScoredEmail where
  email_id : ℤ
  urgency_score : ℚ
  floor_override : Bool
  force_today : Bool
deriving DecidableEq

/-- The settings dictionary with its defaults already applied
(`task_limit` 20, `urgency_floor` 90, `time_pressure_threshold` 15). -/
structure Settings where
  task_limit : ℤ
  urgency_floor : ℤ
  time_pressure_threshold : ℚ
deriving DecidableEq

def default_settings : Settings := ⟨20, 90, 15⟩

/-- One assignment record; `due_date` is a day number, `none` standing for
Python `None`. -/
structure Assignment where
  email_id : ℤ
  due_date : Option ℤ
  pool : Pool
  assignment_reason : String
  slot : Slot
deriving DecidableEq

/-- `this_friday = today + ((4 - today.weekday()) % 7)`. -/
def this_friday (today : ℤ) : ℤ :=
  today + (4 - today % 7) % 7

/-- `next_monday = today + d` with `d = (7 - today.weekday()) % 7`, forced
to 7 when that is 0. -/
def next_monday (today : ℤ) : ℤ :=
  let days_until_next_monday := (7 - today % 7) % 7
  today + (if days_until_next_monday = 0 then 7 else days_until_next_monday)

/-- Stable insert for the descending sort: the new element goes before the
first element whose score is less than or equal to its own, so
earlier-arriving elements of equal score stay in front. -/
def insertDesc (e : ScoredEmail) : List ScoredEmail → List ScoredEmail
  | [] => [e]
  | b :: t =>
      if b.urgency_score ≤ e.urgency_score then e :: b :: t
      else b :: insertDesc e t

/-- `standard_pool.sort(key=urgency_score, reverse=True)`: CPython's sort is
stable, and a stable descending sort is uniquely determined by its
specification, so this stable insertion sort is extensionally the same
function. -/
def sortDesc : List ScoredEmail → List ScoredEmail
  | [] => []
  | a :: t => insertDesc a (sortDesc t)

/-- Floor-pool membership: `floor_override` or `force_today` set. -/
def in_floor_pool (e : ScoredEmail) : Bool :=
  e.floor_override || e.force_today

/-- The assignment built for a floor-pool email (slot `today`, reason
`stale_force_today` when forced, else `urgency_floor`). -/
def floor_assignment (today : ℤ) (e : ScoredEmail) : Assignment :=
  ⟨e.email_id, some today, Pool.floor,
   if e.force_today then "stale_force_today" else "urgency_floor", Slot.today⟩

/-- One of the three bounded `while standard_idx < len and standard_idx <
bound` loops: consume emails while the running index is below `bound`,
returning the assignments made, the final index and the unconsumed
suffix. -/
def phase (mk : ScoredEmail → Assignment) (bound : ℤ) :
    ℤ → List ScoredEmail → List Assignment × ℤ × List ScoredEmail
  | idx, [] => ([], idx, [])
  | idx, e :: rest =>
      if idx < bound then
        let r := phase mk bound (idx + 1) rest
        (mk e :: r.1, r.2.1, r.2.2)
      else ([], idx, e :: rest)

/-- The final loop: every remaining email gets `no_date` when its score is
below the threshold, else `next_week`. -/
def last_phase (threshold : ℚ) (mkNo mkNext : ScoredEmail → Assignment) :
    List ScoredEmail → List Assignment
  | [] => []
  | e :: rest =>
      (if e.urgency_score < threshold then mkNo e else mkNext e)
        :: last_phase threshold mkNo mkNext rest

/-- `assign_due_dates`: split into floor/standard pools, sort the standard
pool by urgency descending (stably), send the floor pool to `today`, then
fill `today` / `tomorrow` / `this_week` / (`no_date` | `next_week`) slots
positionally. -/
def assign_due_dates (today : ℤ) (scored_emails : List ScoredEmail)
    (settings : Settings) : List Assignment :=
  let task_limit := settings.task_limit
  let time_pressure_threshold := settings.time_pressure_threshold
  let tomorrow := today + 1
  let parts := scored_emails.partition in_floor_pool
  let floor_pool := parts.1
  let standard_pool := sortDesc parts.2
  let available_today_slots : ℤ :=
    let a := task_limit - (floor_pool.length : ℤ)
    if a < 0 then 0 else a
  let floor_assignments := floor_pool.map (floor_assignment today)
  let p1 := phase
    (fun e => ⟨e.email_id, some today, Pool.standard, "high_priority", Slot.today⟩)
    available_today_slots 0 standard_pool
  let tomorrow_end := p1.2.1 + task_limit
  let p2 := phase
    (fun e => ⟨e.email_id, some tomorrow, Pool.standard, "next_day", Slot.tomorrow⟩)
    tomorrow_end p1.2.1 p1.2.2
  let this_week_end := p2.2.1 + task_limit * 2
  let p3 := phase
    (fun e => ⟨e.email_id, some (this_friday today), Pool.standard, "this_week", Slot.this_week⟩)
    this_week_end p2.2.1 p2.2.2
  let p4 := last_phase time_pressure_threshold
    (fun e => ⟨e.email_id, none, Pool.standard, "below_threshold", Slot.no_date⟩)
    (fun e => ⟨e.email_id, some (next_monday today), Pool.standard, "next_week", Slot.next_week⟩)
    p3.2.2
  floor_assignments ++ p1.1 ++ p2.1 ++ p3.1 ++ p4

/-- The `by_slot` counters of the summary. -/
structure SlotCounts where
  today : ℕ
  tomorrow : ℕ
  this_week : ℕ
  next_week : ℕ
  no_date : ℕ
deriving DecidableEq

/-- The `by_pool` counters of the summary. -/
structure PoolCounts where
  floor : ℕ
  standard : ℕ
deriving DecidableEq

/-- The summary dictionary of `get_assignment_summary`. -/
structure Summary where
  total : ℕ
  by_slot : SlotCounts
  by_pool : PoolCounts
  today_count : ℕ
  floor_overflow : Bool
deriving DecidableEq

/-- `get_assignment_summary`: per-slot / per-pool counts; `floor_overflow`
is set when the number of floor-pool items in the `today` slot exceeds the
hard-coded 20 ("assume 20 if not tracked" heuristic of the source). -/
def get_assignment_summary (assignments : List Assignment) : Summary :=
  let floor_count := assignments.countP
    (fun a => decide (a.slot = Slot.today ∧ a.pool = Pool.floor))
  { total := assignments.length,
    by_slot :=
      ⟨assignments.countP (fun a => decide (a.slot = Slot.today)),
       assignments.countP (fun a => decide (a.slot = Slot.tomorrow)),
       assignments.countP (fun a => decide (a.slot = Slot.this_week)),
       assignments.countP (fun a => decide (a.slot = Slot.next_week)),
       assignments.countP (fun a => decide (a.slot = Slot.no_date))⟩,
    by_pool :=
      ⟨assignments.countP (fun a => decide (a.pool = Pool.floor)),
       assignments.countP (fun a => decide (a.pool = Pool.standard))⟩,
    today_count := assignments.countP (fun a => decide (a.slot = Slot.today)),
    floor_overflow := decide (20 < floor_count) }

end Assignment

/-- A concrete environment whose regex oracle never matches (used to
evaluate the embedding at concrete inputs). -/
def trivEnv : ReEnv :=
  ⟨fun _ _ => false, fun _ => [], fun _ => [], fun _ _ => none⟩

/-- An email carrying a calendar MIME marker in its body. -/
def calendarEmail : Email :=
  { body := "text/calendar" }

/-- An email received 24000 hours (= 1000 whole days) ago. -/
def staleEmail1000 : Email :=
  { received_hours_ago := some 24000 }

/-- Six floor-pool items (all with `floor_override` set). -/
def floorBatch6 : List Assignment.ScoredEmail :=
  [⟨1, 95, true, false⟩, ⟨2, 95, true, false⟩, ⟨3, 95, true, false⟩,
   ⟨4, 95, true, false⟩, ⟨5, 95, true, false⟩, ⟨6, 95, true, false⟩]

/-- A batch of 3 floor-pool items and 8 standard items. -/
def mixedBatch11 : List Assignment.ScoredEmail :=
  [⟨1, 100, true, false⟩, ⟨2, 100, false, true⟩, ⟨3, 95, true, true⟩,
   ⟨4, 70, false, false⟩, ⟨5, 65, false, false⟩, ⟨6, 60, false, false⟩,
   ⟨7, 55, false, false⟩, ⟨8, 50, false, false⟩, ⟨9, 45, false, false⟩,
   ⟨10, 40, false, false⟩, ⟨11, 35, false, false⟩]

/-- A single standard scored email. -/
def singleBatch : List Assignment.ScoredEmail :=
  [⟨1, 50, false, false⟩]

theorem roundHalfEven_intCast (m : ℤ) : roundHalfEven (m : ℚ) = m := by
  unfold roundHalfEven
  rw [Int.floor_intCast]
  norm_num

theorem pyRound2_div20 (m : ℤ) : pyRound2 ((m : ℚ) / 20) = (m : ℚ) / 20 := by
  unfold pyRound2
  have h : ((m : ℚ) / 20) * 100 = ((5 * m : ℤ) : ℚ) := by push_cast; ring
  rw [h, roundHalfEven_intCast]
  push_cast
  ring

theorem weightOf_explicit_deadline : Scoring.weightOf "explicit_deadline" = 0.25 := rfl

theorem weightOf_sender_seniority : Scoring.weightOf "sender_seniority" = 0.15 := rfl

theorem weightOf_importance_flag : Scoring.weightOf "importance_flag" = 0.10 := rfl

theorem weightOf_urgency_language : Scoring.weightOf "urgency_language" = 0.15 := rfl

theorem weightOf_thread_velocity : Scoring.weightOf "thread_velocity" = 0.10 := rfl

theorem weightOf_client_external : Scoring.weightOf "client_external" = 0.05 := rfl

theorem weightOf_age_of_email : Scoring.weightOf "age_of_email" = 0.10 := rfl

theorem weightOf_followup_overdue : Scoring.weightOf "followup_overdue" = 0.10 := rfl

theorem weighted_sum_div20 (s : Scoring.Signals) :
    Scoring.weighted_sum s =
      ((5 * s.explicit_deadline + 3 * s.sender_seniority + 2 * s.importance_flag
        + 3 * s.urgency_language + 2 * s.thread_velocity + s.client_external
        + 2 * s.age_of_email + 2 * s.followup_overdue : ℤ) : ℚ) / 20 := by
  simp only [Scoring.weighted_sum, Scoring.signalsList, List.foldl_cons, List.foldl_nil,
    weightOf_explicit_deadline, weightOf_sender_seniority, weightOf_importance_flag,
    weightOf_urgency_language, weightOf_thread_velocity, weightOf_client_external,
    weightOf_age_of_email, weightOf_followup_overdue]
  push_cast
  norm_num
  ring

theorem clamp_div20 (m : ℤ) :
    max 0 (min 100 ((m : ℚ) / 20)) = ((max 0 (min 2000 m) : ℤ) : ℚ) / 20 := by
  have h20 : (0 : ℚ) < 20 := by norm_num
  have h100 : (100 : ℚ) = (2000 : ℚ) / 20 := by norm_num
  have h0 : (0 : ℚ) = (0 : ℚ) / 20 := by norm_num
  rw [h100, h0, min_div_div_right h20.le, max_div_div_right h20.le]
  push_cast [Int.cast_min, Int.cast_max]
  norm_num

/-- C1: the eight signal weights sum to exactly 1.0, and for every input the
raw score equals the weighted sum of the eight signals clamped to [0, 100]
(so it lies in [0, 100] for all inputs). -/
theorem c1_weights_sum_one_and_raw_score_clamped :
    (Scoring.SIGNAL_WEIGHTS.map Prod.snd).sum = 1 ∧
    ∀ (env : ReEnv) (today now_hour : ℤ) (email : Email)
      (db : Option (String → ℕ)) (user_domain : String),
      (Scoring.score_email env today now_hour email db user_domain).raw_score
        = max 0 (min 100 (Scoring.weighted_sum
            (Scoring.signalsOf env today now_hour email db user_domain))) ∧
      0 ≤ (Scoring.score_email env today now_hour email db user_domain).raw_score ∧
      (Scoring.score_email env today now_hour email db user_domain).raw_score ≤ 100 := by
  constructor
  · norm_num [Scoring.SIGNAL_WEIGHTS]
  · intro env today now_hour email db user_domain
    have heq : (Scoring.score_email env today now_hour email db user_domain).raw_score
        = pyRound2 (max 0 (min 100 (Scoring.weighted_sum
            (Scoring.signalsOf env today now_hour email db user_domain)))) := rfl
    set s := Scoring.signalsOf env today now_hour email db user_domain
    have hclamp := clamp_div20 (5 * s.explicit_deadline + 3 * s.sender_seniority
      + 2 * s.importance_flag + 3 * s.urgency_language + 2 * s.thread_velocity
      + s.client_external + 2 * s.age_of_email + 2 * s.followup_overdue)
    rw [heq, weighted_sum_div20 s, hclamp, pyRound2_div20, ← hclamp,
      ← weighted_sum_div20 s]
    refine ⟨rfl, le_max_left _ _, ?_⟩
    exact max_le (by norm_num) (min_le_left _ _)

/-- C8: when no database session is supplied, the thread-velocity signal is
0 (rather than an error) and `score_email` behaves exactly as if the lookup
had returned a zero count: the overall score is still computed from the
remaining signals. -/
theorem c8_no_thread_lookup_velocity_zero (env : ReEnv) (today now_hour : ℤ)
    (email : Email) (user_domain : String) :
    (Scoring.signalsOf env today now_hour email none user_domain).thread_velocity = 0 ∧
    Scoring.score_email env today now_hour email none user_domain
      = Scoring.score_email env today now_hour email (some fun _ => 0) user_domain := by
  have hs : Scoring.signalsOf env today now_hour email none user_domain
      = Scoring.signalsOf env today now_hour email (some fun _ => 0) user_domain := by
    unfold Scoring.signalsOf Scoring.extract_thread_velocity
    cases hc : email.conversation_id with
    | none => rfl
    | some cid => by_cases hcid : cid = "" <;> simp [hcid]
  refine ⟨rfl, ?_⟩
  unfold Scoring.score_email
  rw [hs]

/-- C7: `check_override` on a current category outside {6, 7, 8, 9, 11}
returns `override = False` with no trigger and no reason, for every email,
user, first name and database session. -/
theorem c7_override_skips_other_categories (env : ReEnv) (email : Email)
    (current_category : ℤ) (user_email first_name : String)
    (db : Option (String → String → Bool))
    (h : current_category ∉ ([6, 7, 8, 9, 11] : List ℤ)) :
    ClassifierOverride.check_override env email current_category user_email first_name db
      = ⟨false, none, none⟩ := by
  unfold ClassifierOverride.check_override
  rw [if_pos h]

theorem c7_override_skips_other_categories_witness :
    ClassifierOverride.check_override trivEnv {} 3 "user@company.com" "User" none
      = ⟨false, none, none⟩ :=
  c7_override_skips_other_categories trivEnv {} 3 "user@company.com" "User" none (by decide)

/-- C6: for every `today`, `this_friday` lies in [today, today + 6] and
falls on a Friday (weekday 4 in the source's Monday = 0 convention), and
`next_monday` lies in [today + 1, today + 7], falls on a Monday (weekday 0)
and is never `today` itself. -/
theorem c6_friday_monday_date_law (today : ℤ) :
    today ≤ Assignment.this_friday today ∧
    Assignment.this_friday today ≤ today + 6 ∧
    Assignment.this_friday today % 7 = 4 ∧
    today + 1 ≤ Assignment.next_monday today ∧
    Assignment.next_monday today ≤ today + 7 ∧
    Assignment.next_monday today % 7 = 0 ∧
    Assignment.next_monday today ≠ today := by
  simp only [Assignment.this_friday, Assignment.next_monday]
  split_ifs <;> omega

theorem check_calendar_category (env : ReEnv) (email : Email)
    (r : ClassifierDeterministic.ClassificationResult)
    (h : ClassifierDeterministic.check_calendar env email = some r) :
    r.category_id = 8 := by
  unfold ClassifierDeterministic.check_calendar at h
  try dsimp only at h
  repeat' split at h
  all_goals first
    | (injection h with h2; exact h2 ▸ rfl)
    | (injection h)

theorem check_marketing_category (env : ReEnv) (email : Email)
    (r : ClassifierDeterministic.ClassificationResult)
    (h : ClassifierDeterministic.check_marketing env email = some r) :
    r.category_id = 6 := by
  unfold ClassifierDeterministic.check_marketing at h
  try dsimp only at h
  repeat' split at h
  all_goals first
    | (injection h with h2; exact h2 ▸ rfl)
    | (injection h)

theorem check_travel_category (email : Email)
    (r : ClassifierDeterministic.ClassificationResult)
    (h : ClassifierDeterministic.check_travel email = some r) :
    r.category_id = 11 := by
  unfold ClassifierDeterministic.check_travel at h
  try dsimp only at h
  repeat' split at h
  all_goals first
    | (injection h with h2; exact h2 ▸ rfl)
    | (injection h)

/-- C10: `classify_deterministic` called without a user address skips the
Notification and FYI rules entirely: any classification produced is
Calendar (8), Marketing (6) or Travel (11), never 7 or 9. -/
theorem c10_no_user_email_never_notification_or_fyi (env : ReEnv) (email : Email)
    (r : ClassifierDeterministic.ClassificationResult)
    (h : ClassifierDeterministic.classify_deterministic env email none = some r) :
    (r.category_id = 8 ∨ r.category_id = 6 ∨ r.category_id = 11) ∧
    r.category_id ≠ 7 ∧ r.category_id ≠ 9 := by
  unfold ClassifierDeterministic.classify_deterministic at h
  simp only [ClassifierDeterministic.strTruthy, Bool.false_eq_true, if_false] at h
  cases hcal : ClassifierDeterministic.check_calendar env email with
  | some rc =>
      rw [hcal] at h
      obtain rfl := Option.some.inj h
      have h8 := check_calendar_category env email rc hcal
      exact ⟨Or.inl h8, by omega, by omega⟩
  | none =>
      rw [hcal] at h
      cases hmkt : ClassifierDeterministic.check_marketing env email with
      | some rm =>
          rw [hmkt] at h
          obtain rfl := Option.some.inj h
          have h6 := check_marketing_category env email rm hmkt
          exact ⟨Or.inr (Or.inl h6), by omega, by omega⟩
      | none =>
          rw [hmkt] at h
          cases htrv : ClassifierDeterministic.check_travel email with
          | some rt =>
              rw [htrv] at h
              obtain rfl := Option.some.inj h
              have h11 := check_travel_category email rt htrv
              exact ⟨Or.inr (Or.inr h11), by omega, by omega⟩
          | none =>
              rw [htrv] at h
              simp at h

theorem c10_no_user_email_never_notification_or_fyi_witness :
    (((⟨8, "Calendar MIME type or .ics attachment detected", 0.95⟩ :
        ClassifierDeterministic.ClassificationResult).category_id = 8 ∨
      (⟨8, "Calendar MIME type or .ics attachment detected", 0.95⟩ :
        ClassifierDeterministic.ClassificationResult).category_id = 6 ∨
      (⟨8, "Calendar MIME type or .ics attachment detected", 0.95⟩ :
        ClassifierDeterministic.ClassificationResult).category_id = 11) ∧
     (⟨8, "Calendar MIME type or .ics attachment detected", 0.95⟩ :
        ClassifierDeterministic.ClassificationResult).category_id ≠ 7 ∧
     (⟨8, "Calendar MIME type or .ics attachment detected", 0.95⟩ :
        ClassifierDeterministic.ClassificationResult).category_id ≠ 9) :=
  c10_no_user_email_never_notification_or_fyi trivEnv calendarEmail
    ⟨8, "Calendar MIME type or .ics attachment detected", 0.95⟩ (by rfl)

/-- C3 (code bug witness): the stored target numbers of `DAY_PATTERNS` are
1-based (Monday = 1 … Sunday = 7) while `today.weekday()` is 0-based
(Monday = 0), so a matched day name resolves one calendar day late.  With
`today = 0` (a Monday), the only Friday within the next 0-6 days is day 4
(weekday 4), but the bare `friday` pattern resolves to day 5 — a Saturday. -/
theorem c3_day_of_week_resolution_off_by_one :
    ("\\bfriday\\b", (5 : ℤ)) ∈ Scoring.DAY_PATTERNS ∧
    Scoring.dayCandidate 0 ("\\bfriday\\b", 5) = 5 ∧
    (Scoring.dayCandidate 0 ("\\bfriday\\b", 5)) % 7 ≠ 4 := by
  refine ⟨by decide, by decide, by decide⟩

/-- C4 (code bug witness): tier 4 of `STALE_ESCALATION_CURVE` only covers
stale days 11-999, so an email 1000 whole days old receives no escalation
at all — `force_today` stays false and the score stays at the raw score —
although the function's own docstring promises "Day 11+: Force to Today
unconditionally". -/
theorem c4_stale_1000_days_not_forced :
    Scoring.apply_stale_escalation staleEmail1000 20 = (20, 1000, 0, false) := by
  have hfl : ⌊(24000 : ℚ) / 24⌋ = 1000 := by norm_num
  unfold Scoring.apply_stale_escalation staleEmail1000
  norm_num [hfl, Scoring.STALE_ESCALATION_ENABLED, Scoring.STALE_ESCALATION_CURVE,
    List.find?]

theorem insertDesc_perm (e : Assignment.ScoredEmail) (l : List Assignment.ScoredEmail) :
    (Assignment.insertDesc e l).Perm (e :: l) := by
  induction l with
  | nil => exact List.Perm.refl _
  | cons b t ih =>
      simp only [Assignment.insertDesc]
      split
      · exact List.Perm.refl _
      · exact (ih.cons b).trans (List.Perm.swap e b t)

theorem sortDesc_perm (l : List Assignment.ScoredEmail) :
    (Assignment.sortDesc l).Perm l := by
  induction l with
  | nil => exact List.Perm.refl _
  | cons a t ih =>
      simp only [Assignment.sortDesc]
      exact (insertDesc_perm a _).trans (ih.cons a)

theorem phase_ids (mk : Assignment.ScoredEmail → Assignment.Assignment) (bound : ℤ)
    (hmk : ∀ e, (mk e).email_id = e.email_id) (idx : ℤ)
    (l : List Assignment.ScoredEmail) :
    ((Assignment.phase mk bound idx l).1.map (fun a => a.email_id))
      ++ ((Assignment.phase mk bound idx l).2.2.map (fun e => e.email_id))
    = l.map (fun e => e.email_id) := by
  induction l generalizing idx with
  | nil => simp [Assignment.phase]
  | cons e rest ih =>
      simp only [Assignment.phase]
      split
      · simp [hmk, ih]
      · simp

theorem last_phase_ids (threshold : ℚ)
    (mkNo mkNext : Assignment.ScoredEmail → Assignment.Assignment)
    (h1 : ∀ e, (mkNo e).email_id = e.email_id)
    (h2 : ∀ e, (mkNext e).email_id = e.email_id)
    (l : List Assignment.ScoredEmail) :
    (Assignment.last_phase threshold mkNo mkNext l).map (fun a => a.email_id)
      = l.map (fun e => e.email_id) := by
  induction l with
  | nil => simp [Assignment.last_phase]
  | cons e rest ih =>
      simp only [Assignment.last_phase]
      split <;> simp [h1, h2, ih]

theorem phase_forall (P : Assignment.Assignment → Prop)
    (mk : Assignment.ScoredEmail → Assignment.Assignment) (bound : ℤ)
    (hmk : ∀ e, P (mk e)) (idx : ℤ) (l : List Assignment.ScoredEmail) :
    ∀ a ∈ (Assignment.phase mk bound idx l).1, P a := by
  induction l generalizing idx with
  | nil => intro a ha; simp [Assignment.phase] at ha
  | cons e rest ih =>
      intro a ha
      simp only [Assignment.phase] at ha
      split at ha
      · rcases List.mem_cons.mp ha with rfl | hmem
        · exact hmk e
        · exact ih _ a hmem
      · simp at ha

theorem last_phase_forall (P : Assignment.Assignment → Prop) (threshold : ℚ)
    (mkNo mkNext : Assignment.ScoredEmail → Assignment.Assignment)
    (h1 : ∀ e, P (mkNo e)) (h2 : ∀ e, P (mkNext e))
    (l : List Assignment.ScoredEmail) :
    ∀ a ∈ Assignment.last_phase threshold mkNo mkNext l, P a := by
  induction l with
  | nil => intro a ha; simp [Assignment.last_phase] at ha
  | cons e rest ih =>
      intro a ha
      simp only [Assignment.last_phase] at ha
      rcases List.mem_cons.mp ha with rfl | hmem
      · split <;> [exact h1 e; exact h2 e]
      · exact ih a hmem

theorem phase_countP_floor_zero (mk : Assignment.ScoredEmail → Assignment.Assignment)
    (bound : ℤ) (hmk : ∀ e, (mk e).pool = Assignment.Pool.standard) (idx : ℤ)
    (l : List Assignment.ScoredEmail) :
    List.countP
      (fun a => decide (a.slot = Assignment.Slot.today ∧ a.pool = Assignment.Pool.floor))
      (Assignment.phase mk bound idx l).1 = 0 := by
  rw [List.countP_eq_zero]
  intro a ha
  have hp := phase_forall (fun a => a.pool = Assignment.Pool.standard) mk bound hmk idx l a ha
  simp [hp]

theorem last_phase_countP_floor_zero (threshold : ℚ)
    (mkNo mkNext : Assignment.ScoredEmail → Assignment.Assignment)
    (h1 : ∀ e, (mkNo e).pool = Assignment.Pool.standard)
    (h2 : ∀ e, (mkNext e).pool = Assignment.Pool.standard)
    (l : List Assignment.ScoredEmail) :
    List.countP
      (fun a => decide (a.slot = Assignment.Slot.today ∧ a.pool = Assignment.Pool.floor))
      (Assignment.last_phase threshold mkNo mkNext l) = 0 := by
  rw [List.countP_eq_zero]
  intro a ha
  have hp := last_phase_forall (fun a => a.pool = Assignment.Pool.standard)
    threshold mkNo mkNext h1 h2 l a ha
  simp [hp]

/-- C5 counterexample: with `task_limit = 5` and a floor pool of 6 items the
claim demands `floor_overflow = True` (6 > 5), but the summary reports
`False` — its threshold is the hard-coded 20, not the batch's task limit. -/
theorem c5_floor_overflow_counterexample :
    (floorBatch6.filter Assignment.in_floor_pool).length = 6 ∧
    (Assignment.Settings.mk 5 90 15).task_limit = 5 ∧
    (Assignment.get_assignment_summary
        (Assignment.assign_due_dates 0 floorBatch6 ⟨5, 90, 15⟩)).floor_overflow = false := by
  refine ⟨by decide, by decide, by decide⟩

/-- C5 amended: `get_assignment_summary` reports `floor_overflow = True` iff
the number of floor-pool items (all of which land in the `today` slot)
exceeds the hard-coded default task limit of 20, regardless of the
`task_limit` in the settings the batch was assigned under. -/
theorem c5_floor_overflow_hardcoded_20 (today : ℤ)
    (scored_emails : List Assignment.ScoredEmail) (settings : Assignment.Settings) :
    (Assignment.get_assignment_summary
        (Assignment.assign_due_dates today scored_emails settings)).floor_overflow
      = decide (20 < (scored_emails.filter Assignment.in_floor_pool).length) := by
  simp only [Assignment.assign_due_dates, Assignment.get_assignment_summary,
    List.partition_eq_filter_filter]
  rw [List.countP_append, List.countP_append, List.countP_append, List.countP_append]
  have h1 : List.countP
      (fun a => decide (a.slot = Assignment.Slot.today ∧ a.pool = Assignment.Pool.floor))
      ((scored_emails.filter Assignment.in_floor_pool).map (Assignment.floor_assignment today))
      = (scored_emails.filter Assignment.in_floor_pool).length := by
    rw [List.countP_map]
    have hcomp : ((fun a => decide (a.slot = Assignment.Slot.today ∧
        a.pool = Assignment.Pool.floor)) ∘ Assignment.floor_assignment today)
        = fun _ : Assignment.ScoredEmail => true := by
      funext e
      simp [Assignment.floor_assignment]
    rw [hcomp, List.countP_true]
  rw [h1, phase_countP_floor_zero _ _ (fun e => rfl),
    phase_countP_floor_zero _ _ (fun e => rfl),
    phase_countP_floor_zero _ _ (fun e => rfl),
    last_phase_countP_floor_zero _ _ _ (fun e => rfl) (fun e => rfl)]
  norm_num

/-- C9: `assign_due_dates` produces exactly one assignment per input email —
the multiset of `email_id`s is preserved (no drop, no duplication) — and
every assignment carries one of the five slots, with a non-null due date
exactly outside the `no_date` slot. -/
theorem c9_assignment_invariants (today : ℤ) (emails : List Assignment.ScoredEmail)
    (settings : Assignment.Settings) :
    ((Assignment.assign_due_dates today emails settings).map (fun a => a.email_id)).Perm
      (emails.map (fun e => e.email_id)) ∧
    ∀ a ∈ Assignment.assign_due_dates today emails settings,
      (a.due_date = none ↔ a.slot = Assignment.Slot.no_date) ∧
      (a.slot = Assignment.Slot.today ∨ a.slot = Assignment.Slot.tomorrow ∨
       a.slot = Assignment.Slot.this_week ∨ a.slot = Assignment.Slot.next_week ∨
       a.slot = Assignment.Slot.no_date) := by
  constructor
  · simp only [Assignment.assign_due_dates, List.partition_eq_filter_filter]
    simp only [List.map_append, List.append_assoc]
    rw [last_phase_ids settings.time_pressure_threshold
      (fun e => ⟨e.email_id, none, Assignment.Pool.standard, "below_threshold",
        Assignment.Slot.no_date⟩)
      (fun e => ⟨e.email_id, some (Assignment.next_monday today), Assignment.Pool.standard,
        "next_week", Assignment.Slot.next_week⟩)
      (fun e => rfl) (fun e => rfl)]
    rw [phase_ids (fun e => ⟨e.email_id, some (Assignment.this_friday today),
        Assignment.Pool.standard, "this_week", Assignment.Slot.this_week⟩) _
      (fun e => rfl)]
    rw [phase_ids (fun e => ⟨e.email_id, some (today + 1),
        Assignment.Pool.standard, "next_day", Assignment.Slot.tomorrow⟩) _
      (fun e => rfl)]
    rw [phase_ids (fun e => ⟨e.email_id, some today,
        Assignment.Pool.standard, "high_priority", Assignment.Slot.today⟩) _
      (fun e => rfl)]
    rw [List.map_map]
    have hcomp : ((fun a : Assignment.Assignment => a.email_id)
        ∘ Assignment.floor_assignment today)
        = fun e : Assignment.ScoredEmail => e.email_id := rfl
    rw [hcomp]
    refine (List.Perm.append_left _ ((sortDesc_perm _).map _)).trans ?_
    rw [← List.map_append]
    exact (List.filter_append_perm Assignment.in_floor_pool emails).map _
  · intro a ha
    simp only [Assignment.assign_due_dates, List.partition_eq_filter_filter,
      List.mem_append] at ha
    rcases ha with (((ha | ha) | ha) | ha) | ha
    · obtain ⟨e, -, rfl⟩ := List.mem_map.mp ha
      simp [Assignment.floor_assignment]
    · refine phase_forall
        (fun a => (a.due_date = none ↔ a.slot = Assignment.Slot.no_date) ∧
        (a.slot = Assignment.Slot.today ∨ a.slot = Assignment.Slot.tomorrow ∨
         a.slot = Assignment.Slot.this_week ∨ a.slot = Assignment.Slot.next_week ∨
         a.slot = Assignment.Slot.no_date)) _ _ ?_ _ _ a ha
      intro e
      simp
    · refine phase_forall
        (fun a => (a.due_date = none ↔ a.slot = Assignment.Slot.no_date) ∧
        (a.slot = Assignment.Slot.today ∨ a.slot = Assignment.Slot.tomorrow ∨
         a.slot = Assignment.Slot.this_week ∨ a.slot = Assignment.Slot.next_week ∨
         a.slot = Assignment.Slot.no_date)) _ _ ?_ _ _ a ha
      intro e
      simp
    · refine phase_forall
        (fun a => (a.due_date = none ↔ a.slot = Assignment.Slot.no_date) ∧
        (a.slot = Assignment.Slot.today ∨ a.slot = Assignment.Slot.tomorrow ∨
         a.slot = Assignment.Slot.this_week ∨ a.slot = Assignment.Slot.next_week ∨
         a.slot = Assignment.Slot.no_date)) _ _ ?_ _ _ a ha
      intro e
      simp
    · refine last_phase_forall
        (fun a => (a.due_date = none ↔ a.slot = Assignment.Slot.no_date) ∧
        (a.slot = Assignment.Slot.today ∨ a.slot = Assignment.Slot.tomorrow ∨
         a.slot = Assignment.Slot.this_week ∨ a.slot = Assignment.Slot.next_week ∨
         a.slot = Assignment.Slot.no_date)) _ _ _ ?_ ?_ _ a ha <;> intro e <;> simp

theorem c9_assignment_invariants_witness :
    (((⟨1, some 0, Assignment.Pool.standard, "high_priority",
        Assignment.Slot.today⟩ : Assignment.Assignment).due_date = none ↔
      (⟨1, some 0, Assignment.Pool.standard, "high_priority",
        Assignment.Slot.today⟩ : Assignment.Assignment).slot = Assignment.Slot.no_date) ∧
     ((⟨1, some 0, Assignment.Pool.standard, "high_priority",
        Assignment.Slot.today⟩ : Assignment.Assignment).slot = Assignment.Slot.today ∨
      (⟨1, some 0, Assignment.Pool.standard, "high_priority",
        Assignment.Slot.today⟩ : Assignment.Assignment).slot = Assignment.Slot.tomorrow ∨
      (⟨1, some 0, Assignment.Pool.standard, "high_priority",
        Assignment.Slot.today⟩ : Assignment.Assignment).slot = Assignment.Slot.this_week ∨
      (⟨1, some 0, Assignment.Pool.standard, "high_priority",
        Assignment.Slot.today⟩ : Assignment.Assignment).slot = Assignment.Slot.next_week ∨
      (⟨1, some 0, Assignment.Pool.standard, "high_priority",
        Assignment.Slot.today⟩ : Assignment.Assignment).slot = Assignment.Slot.no_date)) :=
  (c9_assignment_invariants 0 singleBatch ⟨5, 90, 15⟩).2
    ⟨1, some 0, Assignment.Pool.standard, "high_priority", Assignment.Slot.today⟩
    (by decide)

/-- C2: with `task_limit = 5`, 3 floor-pool items and 8 standard items, all
3 floor items land in slot `today`, and the standard items receive, in
sorted order, exactly 2 `today` slots (`available_today_slots =
max(0, 5 - 3) = 2`), then 5 `tomorrow` slots, and the one remaining item a
`this_week` slot (the `this_week` capacity `task_limit × 2 = 10` is not
exhausted, so the time-pressure threshold is never consulted). -/
theorem c2_capacity_law (today : ℤ) (emails : List Assignment.ScoredEmail)
    (settings : Assignment.Settings) (htl : settings.task_limit = 5)
    (hf : (emails.filter Assignment.in_floor_pool).length = 3)
    (hs : (emails.filter (not ∘ Assignment.in_floor_pool)).length = 8) :
    ((Assignment.assign_due_dates today emails settings).filter
        (fun a => decide (a.pool = Assignment.Pool.floor))).map (fun a => a.slot)
      = List.replicate 3 Assignment.Slot.today ∧
    ((Assignment.assign_due_dates today emails settings).filter
        (fun a => decide (a.pool = Assignment.Pool.standard))).map (fun a => a.slot)
      = [Assignment.Slot.today, Assignment.Slot.today, Assignment.Slot.tomorrow,
         Assignment.Slot.tomorrow, Assignment.Slot.tomorrow, Assignment.Slot.tomorrow,
         Assignment.Slot.tomorrow, Assignment.Slot.this_week] := by
  have hlen : (Assignment.sortDesc (emails.filter (not ∘ Assignment.in_floor_pool))).length = 8 := by
    rw [(sortDesc_perm _).length_eq, hs]
  obtain ⟨a1, t1, he1⟩ := List.exists_of_length_succ _ hlen
  have hl1 : t1.length = 7 := by rw [he1] at hlen; simpa using hlen
  obtain ⟨a2, t2, rfl⟩ := List.exists_of_length_succ _ hl1
  have hl2 : t2.length = 6 := by simpa using hl1
  obtain ⟨a3, t3, rfl⟩ := List.exists_of_length_succ _ hl2
  have hl3 : t3.length = 5 := by simpa using hl2
  obtain ⟨a4, t4, rfl⟩ := List.exists_of_length_succ _ hl3
  have hl4 : t4.length = 4 := by simpa using hl3
  obtain ⟨a5, t5, rfl⟩ := List.exists_of_length_succ _ hl4
  have hl5 : t5.length = 3 := by simpa using hl4
  obtain ⟨a6, t6, rfl⟩ := List.exists_of_length_succ _ hl5
  have hl6 : t6.length = 2 := by simpa using hl5
  obtain ⟨a7, t7, rfl⟩ := List.exists_of_length_succ _ hl6
  have hl7 : t7.length = 1 := by simpa using hl6
  obtain ⟨a8, t8, rfl⟩ := List.exists_of_length_succ _ hl7
  have hl8 : t8.length = 0 := by simpa using hl7
  obtain rfl := List.length_eq_zero.mp hl8
  have hmain : Assignment.assign_due_dates today emails settings
      = (emails.filter Assignment.in_floor_pool).map (Assignment.floor_assignment today)
        ++ [⟨a1.email_id, some today, Assignment.Pool.standard, "high_priority", Assignment.Slot.today⟩,
            ⟨a2.email_id, some today, Assignment.Pool.standard, "high_priority", Assignment.Slot.today⟩,
            ⟨a3.email_id, some (today + 1), Assignment.Pool.standard, "next_day", Assignment.Slot.tomorrow⟩,
            ⟨a4.email_id, some (today + 1), Assignment.Pool.standard, "next_day", Assignment.Slot.tomorrow⟩,
            ⟨a5.email_id, some (today + 1), Assignment.Pool.standard, "next_day", Assignment.Slot.tomorrow⟩,
            ⟨a6.email_id, some (today + 1), Assignment.Pool.standard, "next_day", Assignment.Slot.tomorrow⟩,
            ⟨a7.email_id, some (today + 1), Assignment.Pool.standard, "next_day", Assignment.Slot.tomorrow⟩,
            ⟨a8.email_id, some (Assignment.this_friday today), Assignment.Pool.standard, "this_week", Assignment.Slot.this_week⟩] := by
    simp only [Assignment.assign_due_dates, List.partition_eq_filter_filter]
    rw [he1, hf, htl]
    norm_num [Assignment.phase, Assignment.last_phase]
  have hffloor : List.filter (fun a => decide (a.pool = Assignment.Pool.floor))
      ((emails.filter Assignment.in_floor_pool).map (Assignment.floor_assignment today))
      = (emails.filter Assignment.in_floor_pool).map (Assignment.floor_assignment today) := by
    rw [List.filter_eq_self]
    intro a ha
    obtain ⟨e, -, rfl⟩ := List.mem_map.mp ha
    simp [Assignment.floor_assignment]
  have hfstd : List.filter (fun a => decide (a.pool = Assignment.Pool.standard))
      ((emails.filter Assignment.in_floor_pool).map (Assignment.floor_assignment today))
      = [] := by
    rw [List.filter_eq_nil_iff]
    intro a ha
    obtain ⟨e, -, rfl⟩ := List.mem_map.mp ha
    simp [Assignment.floor_assignment]
  have hpf : ¬ (Assignment.Pool.standard = Assignment.Pool.floor) := by decide
  constructor
  · have hmap1 : (List.map (Assignment.floor_assignment today)
        (List.filter Assignment.in_floor_pool emails)).map (fun a => a.slot)
        = List.replicate 3 Assignment.Slot.today := by
      rw [List.map_map]
      rw [show ((fun a : Assignment.Assignment => a.slot) ∘ Assignment.floor_assignment today)
          = fun _ : Assignment.ScoredEmail => Assignment.Slot.today from rfl]
      rw [List.map_const', hf]
    rw [hmain, List.filter_append, hffloor, List.map_append, hmap1]
    simp only [List.filter_cons, List.filter_nil]
    norm_num [hpf]
  · rw [hmain, List.filter_append, hfstd]
    simp only [List.filter_cons, List.filter_nil]
    norm_num

theorem c2_capacity_law_witness :
    ((Assignment.assign_due_dates 0 mixedBatch11 ⟨5, 90, 15⟩).filter
        (fun a => decide (a.pool = Assignment.Pool.floor))).map (fun a => a.slot)
      = List.replicate 3 Assignment.Slot.today ∧
    ((Assignment.assign_due_dates 0 mixedBatch11 ⟨5, 90, 15⟩).filter
        (fun a => decide (a.pool = Assignment.Pool.standard))).map (fun a => a.slot)
      = [Assignment.Slot.today, Assignment.Slot.today, Assignment.Slot.tomorrow,
         Assignment.Slot.tomorrow, Assignment.Slot.tomorrow, Assignment.Slot.tomorrow,
         Assignment.Slot.tomorrow, Assignment.Slot.this_week] :=
  c2_capacity_law 0 mixedBatch11 ⟨5, 90, 15⟩ rfl (by decide) (by decide)
